import Mathlib

/-!
Verification of the checklist cloud-synchronization engine.

The definitions below are a shallow embedding of the client component
`src/components/CloudStorage.tsx` (the sync orchestrator, local store
access, remote store client, import/export) and of the two serverless
endpoint handlers (the `save` and `load` Netlify functions).

Modelling conventions:
  * JSON values are the inductive type `Json`; `JSON.parse`/`JSON.stringify`
    are treated as the identity on this abstract syntax (a parsed artifact is
    carried as a `Json` value; a parse failure is `Option.none`).
  * `localStorage` is an association list from string keys to `Json` values
    (`Store`); the orchestrator model uses non-failing writes, and a second
    rendering `saveToLocalQ` makes the browser's per-write quota failure
    explicit through an oracle, for the atomicity analysis.
  * A `fetch` outcome is the abstract `FetchResult`: a 2xx response with a
    parsed JSON body, a non-2xx response with its status code, or a network
    error carrying the thrown message.
  * React component state (`syncStatus`, `lastSync`, `error`), the parent's
    in-memory checklist state (mutated through `onDataLoad`), and the
    browser's `localStorage` are threaded explicitly as `SyncState`.
  * Event handlers close over the render-time `data` prop, so `handleSync`
    receives that prop value (`dataProp`) explicitly rather than reading the
    threaded state: a handler invoked in the same event-loop turn as an
    `onDataLoad` call still sees the pre-update prop.
  * Timestamps (`new Date().toISOString()`) are opaque strings supplied as a
    `now` argument.
-/

/-- Abstract syntax of JSON values. -/
inductive Json where
  | null
  | bool (b : Bool)
  | num (n : Int)
  | str (s : String)
  | arr (xs : List Json)
  | obj (fields : List (String × Json))

/-- JavaScript truthiness of a JSON value (`if (x)`).  Objects and arrays are
always truthy, including empty ones. -/
def truthy : Json → Bool
  | .null => false
  | .bool b => b
  | .num n => n != 0
  | .str s => s != ""
  | .arr _ => true
  | .obj _ => true

/-- Value of `Object.keys(x).length` for a JSON value: number of own enumerable keys
(field count of an object, index count of an array or string, 0 for
primitives). -/
def keysLength : Json → Nat
  | .obj fields => fields.length
  | .arr xs => xs.length
  | .str s => s.length
  | _ => 0

/-- Property access `x.f` on a parsed JSON value, with a missing field (or a
non-object receiver) giving `undefined`, modelled as `Json.null` — the two are
indistinguishable by the truthiness checks the code performs.  Access on the
receiver `null` itself throws in JavaScript and is handled separately at the
call site. -/
def Json.getField : Json → String → Json
  | .obj fields, k =>
    match fields.find? (fun p => p.1 == k) with
    | some p => p.2
    | none => .null
  | _, _ => .null

/-- JavaScript strict equality `x === s` between a JSON value and a string:
true exactly when `x` is that string. -/
def Json.eqStr : Json → String → Bool
  | .str t, s => t == s
  | _, _ => false

/-- Whether a parsed JSON value is the literal `null` (property access on it
throws in JavaScript). -/
def Json.isNull : Json → Bool
  | .null => true
  | _ => false

/-- The `authHeader.startsWith('Bearer ')` check, rendered over the character
list so that it evaluates inside proofs. -/
def strStartsWith (s p : String) : Bool := List.isPrefixOf p.data s.data

/-- The `authHeader.substring(n)` slice (drop the first `n` characters),
rendered over the character list so that it evaluates inside proofs. -/
def strDrop (s : String) (n : Nat) : String := String.mk (s.data.drop n)

/-- The browser `localStorage`, restricted to the keys this application
touches: an association list from string keys to stored values.  Stored
strings that the code round-trips through `JSON.stringify`/`JSON.parse` are
carried as `Json` values; the raw access token is carried as a `Json.str`. -/
abbrev Store := List (String × Json)

/-- Model of `localStorage.getItem`. -/
def Store.getItem : Store → String → Option Json
  | [], _ => none
  | (k2, v) :: rest, k => if k2 = k then some v else Store.getItem rest k

/-- Model of `localStorage.setItem` (non-failing rendering: quota is available). -/
def Store.setItem : Store → String → Json → Store
  | [], k, v => [(k, v)]
  | (k2, v2) :: rest, k, v =>
    if k2 = k then (k, v) :: rest else (k2, v2) :: Store.setItem rest k v

/-- Model of `localStorage.setItem` with the browser's per-write failure made explicit:
the oracle `canW` says whether a given write fits in the remaining quota;
`none` models the thrown `QuotaExceededError`. -/
def Store.trySetItem (canW : Store → String → Json → Bool) (s : Store)
    (k : String) (v : Json) : Option Store :=
  if canW s k v then some (Store.setItem s k v) else none

/-- The authenticated user consumed from the auth context (`useAuth`). -/
structure User where
  id : String
  email : String
  name : String
  given_name : String
  deriving DecidableEq, Repr

/-- The `StorageConfig` record from `CloudStorage.tsx`: cloud endpoint URL (empty string
when unconfigured) and the auto-sync flag. -/
structure StorageConfig where
  endpoint : String
  autoSync : Bool
  deriving DecidableEq, Repr

/-- The `SyncStatus` states from `CloudStorage.tsx`. -/
inductive SyncStatus where
  | idle
  | syncing
  | synced
  | error
  | offline
  deriving DecidableEq, Repr

/-- The mutable state threaded through the orchestrator: the component's
`syncStatus`, `lastSync` and `error` React state, the browser `localStorage`,
and the parent's in-memory checklist state (written through `onDataLoad`). -/
structure SyncState where
  syncStatus : SyncStatus
  lastSync : Option String
  error : Option String
  store : Store
  appData : Json

/-- Outcome of a `fetch` call: a 2xx response with parsed JSON body, a
non-2xx response with its status code (`response.ok` false), or a rejected
fetch carrying the thrown error message. -/
inductive FetchResult where
  | ok (body : Json)
  | httpError (status : Nat)
  | networkError (msg : String)

/-- The `updateSyncStatus` helper from `CloudStorage.tsx`: records the transition and, on
`synced`, stamps `lastSync` and clears the error. -/
def updateSyncStatus (st : SyncState) (s : SyncStatus) (now : String) :
    SyncState :=
  let st1 := { st with syncStatus := s }
  if s = SyncStatus.synced then { st1 with lastSync := some now, error := none }
  else st1

/-- The `getStorageKey` helper: per-user namespaced key `checklist-<id>-<suffix>`, or
`checklist-<suffix>` when no user is present. -/
def getStorageKey (user : Option User) (suffix : String) : String :=
  match user with
  | some u => "checklist-" ++ u.id ++ "-" ++ suffix
  | none => "checklist-" ++ suffix

/-- The `saveToLocal` write: writes the serialized data blob under the data key and the
current timestamp under the parallel last-modified key (non-failing storage
rendering). -/
def saveToLocal (user : Option User) (now : String) (store : Store)
    (d : Json) : Store :=
  let s1 := Store.setItem store (getStorageKey user "data") d
  Store.setItem s1 (getStorageKey user "last-modified") (Json.str now)

/-- Rendering of `saveToLocal` with the storage failure oracle made explicit: each of the
two `setItem` calls can throw, and the surrounding `try`/`catch` swallows the
error, leaving whatever writes already happened in place.  The function always
returns a store — the failure is non-fatal to the caller. -/
def saveToLocalQ (canW : Store → String → Json → Bool) (user : Option User)
    (now : String) (store : Store) (d : Json) : Store :=
  match Store.trySetItem canW store (getStorageKey user "data") d with
  | none => store
  | some s1 =>
    match Store.trySetItem canW s1 (getStorageKey user "last-modified")
        (Json.str now) with
    | none => s1
    | some s2 => s2

/-- Lookup `localStorage.getItem('google-access-token')` followed by the code's
truthiness check: an absent entry, a non-string entry, or the empty string all
count as "no access token". -/
def getAccessToken (store : Store) : Option String :=
  match Store.getItem store "google-access-token" with
  | some (Json.str t) => if t = "" then none else some t
  | _ => none

/-- The `saveToCloud` client call: precondition check, token lookup, then the POST to
`{endpoint}/save`.  Only a 401 response is converted to the
authentication-expired message; every other non-2xx status becomes the generic
`HTTP error! status: <s>` message.  Thrown errors are the `Except.error`
branch. -/
def saveToCloud (cfg : StorageConfig) (user : Option User) (store : Store)
    (resp : FetchResult) : Except String Bool :=
  if cfg.endpoint = "" ∨ user = none then
    .error "Cloud storage not configured or user not authenticated"
  else
    match getAccessToken store with
    | none => .error "No access token available. Please sign in again."
    | some _ =>
      match resp with
      | .ok _ => .ok true
      | .httpError status =>
        if status = 401 then
          .error "Authentication expired. Please sign out and sign in again."
        else .error ("HTTP error! status: " ++ toString status)
      | .networkError msg => .error msg

/-- The `loadFromCloud` client call: the precondition throw happens before the `try` block
(state untouched); inside the `try`, status goes to `syncing`, and the `catch`
moves it to `offline` before re-throwing.  On a 2xx response the function
returns `result.data`. -/
def loadFromCloud (cfg : StorageConfig) (user : Option User) (st : SyncState)
    (resp : FetchResult) (now : String) : SyncState × Except String Json :=
  if cfg.endpoint = "" ∨ user = none then
    (st, .error "Cloud storage not configured or user not authenticated")
  else
    let st1 := updateSyncStatus st .syncing now
    match getAccessToken st1.store with
    | none =>
      (updateSyncStatus st1 .offline now,
       .error "No access token available. Please sign in again.")
    | some _ =>
      match resp with
      | .ok body => (st1, .ok (body.getField "data"))
      | .httpError status =>
        (updateSyncStatus st1 .offline now,
         .error (if status = 401 then
             "Authentication expired. Please sign out and sign in again."
           else "HTTP error! status: " ++ toString status))
      | .networkError msg =>
        (updateSyncStatus st1 .offline now, .error msg)

/-- The `handleSync` write path.  `dataProp` is the render-time value of the
`data` prop captured by the handler's closure.  Status goes to `syncing`, the
local write happens unconditionally, then the remote save is attempted only
when an endpoint is configured; a remote failure records the message and moves
to `error` without touching the already-committed local write; with no
endpoint the status becomes `offline` after the local write. -/
def handleSync (cfg : StorageConfig) (user : Option User) (isAuth : Bool)
    (dataProp : Json) (st : SyncState) (resp : FetchResult) (now : String) :
    SyncState :=
  if truthy dataProp = false ∨ isAuth = false ∨ user = none then st
  else
    let st1 := updateSyncStatus st .syncing now
    let st2 := { st1 with store := saveToLocal user now st1.store dataProp }
    if cfg.endpoint = "" then updateSyncStatus st2 .offline now
    else
      match saveToCloud cfg user st2.store resp with
      | .ok _ => updateSyncStatus st2 .synced now
      | .error msg =>
        updateSyncStatus { st2 with error := some msg } .error now

/-- The `handleCloudLoad` explicit read path.  On a truthy remote payload the
in-memory state (`onDataLoad`) and the local store are overwritten with the
remote value and status becomes `synced`; a null payload moves to `offline`;
any error thrown by `loadFromCloud` is caught here, recorded, and moves the
status to `error`. -/
def handleCloudLoad (cfg : StorageConfig) (user : Option User) (isAuth : Bool)
    (st : SyncState) (resp : FetchResult) (now : String) : SyncState :=
  if isAuth = false ∨ user = none then st
  else
    let st1 := updateSyncStatus st .syncing now
    match loadFromCloud cfg user st1 resp now with
    | (st2, .ok cloudData) =>
      if truthy cloudData then
        let st3 := { st2 with appData := cloudData }
        let st4 := { st3 with store := saveToLocal user now st3.store cloudData }
        updateSyncStatus st4 .synced now
      else updateSyncStatus st2 .offline now
    | (st2, .error msg) =>
      updateSyncStatus { st2 with error := some msg } .error now

/-- The `handleExport` artifact builder: the downloadable artifact wraps the current snapshot with
the export timestamp, the exporter identity (or null), and the fixed version
tag. -/
def handleExport (user : Option User) (d : Json) (now : String) : Json :=
  Json.obj
    [("data", d),
     ("exportedAt", Json.str now),
     ("exportedBy",
       match user with
       | some u =>
         Json.obj [("name", Json.str u.name), ("email", Json.str u.email),
                   ("id", Json.str u.id)]
       | none => Json.null),
     ("version", Json.str "1.0")]

/-- The `handleImport` path; `parsed` is the `JSON.parse` outcome of the file contents
(`none` = the parse threw).  A parse failure — or a parsed `null`, whose
`.data` access throws — sets the format-error message.  Otherwise, only when
the `data` field is truthy does the import replace the in-memory state and the
local store and, when auto-sync and authentication are active, invoke
`handleSync` immediately; that invocation closes over the render-time `data`
prop, which the `onDataLoad` just issued has not yet updated, so it carries
the pre-import snapshot `st.appData`.  A parsed object without a truthy
`data` field falls through silently: no error is set and no state changes. -/
def handleImport (cfg : StorageConfig) (user : Option User) (isAuth : Bool)
    (st : SyncState) (parsed : Option Json) (resp : FetchResult)
    (now : String) : SyncState :=
  match parsed with
  | none => { st with error := some "Invalid backup file format" }
  | some j =>
    if j.isNull then { st with error := some "Invalid backup file format" }
    else
    let d := j.getField "data"
    if truthy d then
      let st1 := { st with appData := d }
      let st2 := { st1 with store := saveToLocal user now st1.store d }
      if cfg.autoSync && isAuth then
        handleSync cfg user isAuth st.appData st2 resp now
      else st2
    else st

/-- The debounce delay of the auto-sync effect (milliseconds). -/
def debounceDelay : Nat := 2000

/-- The guard of the auto-sync effect:
`config.autoSync && data && Object.keys(data).length > 0 && isAuthenticated`.
Only when it holds is a debounce timer started for the observed mutation. -/
def autoSyncGuard (autoSync : Bool) (isAuth : Bool) (d : Json) : Bool :=
  autoSync && truthy d && decide (0 < keysLength d) && isAuth

/-- Semantics of the auto-sync `useEffect` over a stream of observed snapshot
mutations `(t, d)` with strictly increasing times: each guarded mutation arms
a timer for `t + delay`; the effect cleanup run by the next mutation clears a
still-pending timer (`t2 < t + delay`), while a timer whose deadline has
already passed has fired.  The result lists the sync invocations — each fire
calls `handleSync` with the snapshot captured when its timer was armed. -/
def debounceRuns (delay : Nat) (g : Json → Bool) :
    List (Nat × Json) → List (Nat × Json)
  | [] => []
  | [(t, d)] => if g d then [(t + delay, d)] else []
  | (t, d) :: (t2, d2) :: rest =>
    if g d && decide (t + delay ≤ t2) then
      (t + delay, d) :: debounceRuns delay g ((t2, d2) :: rest)
    else debounceRuns delay g ((t2, d2) :: rest)

/-- Every consecutive pair of mutations in the stream is closer together than
the debounce delay. -/
def withinWindow (delay : Nat) : List (Nat × Json) → Bool
  | [] => true
  | [_] => true
  | (t, _) :: (t2, d2) :: rest =>
    decide (t2 < t + delay) && withinWindow delay ((t2, d2) :: rest)

/-- Identity returned by the endpoint's Google-token verification call
(`verifyGoogleToken`); `none` covers an invalid/expired token, a Google API
error, or a userinfo payload missing `id`/`email`. -/
structure UserInfo where
  id : String
  email : String
  deriving DecidableEq, Repr

/-- An HTTP response produced by a serverless handler. -/
structure HttpResponse where
  statusCode : Nat
  body : Json

/-- Error response body `{error, message}` used by both handlers. -/
def mkErr (e m : String) : Json :=
  Json.obj [("error", Json.str e), ("message", Json.str m)]

/-- The `save` Netlify function.  `verify` abstracts the
`verifyGoogleToken` call; `body` is the `JSON.parse(event.body || '{}')`
outcome (`none` = the parse threw, reaching the outer catch).  The handler
keeps no server-side state: a save is logged and echoed, nothing is stored. -/
def saveHandler (verify : String → Option UserInfo) (httpMethod : String)
    (authHeader : Option String) (body : Option Json) (now : String) :
    HttpResponse :=
  if httpMethod = "OPTIONS" then ⟨200, Json.str ""⟩
  else if httpMethod ≠ "POST" then
    ⟨405, mkErr "Method not allowed" "This endpoint only accepts POST requests"⟩
  else
    match authHeader with
    | none =>
      ⟨401, mkErr "Missing or invalid authorization header"
        "Please provide a valid Bearer token"⟩
    | some h =>
      if ¬ strStartsWith h "Bearer " then
        ⟨401, mkErr "Missing or invalid authorization header"
          "Please provide a valid Bearer token"⟩
      else
        match verify (strDrop h 7) with
        | none =>
          ⟨401, mkErr "Invalid Google token"
            "The provided access token is invalid or expired"⟩
        | some info =>
          match body with
          | none =>
            ⟨500, mkErr "Internal server error"
              "An unexpected error occurred while saving data"⟩
          | some b =>
            if (b.getField "userId").eqStr info.id = false then
              ⟨403, mkErr "User ID mismatch"
                "The user ID does not match the authenticated user"⟩
            else
              ⟨200, Json.obj
                [("success", Json.bool true),
                 ("message", Json.str "Data saved successfully"),
                 ("timestamp", Json.str now),
                 ("userId", b.getField "userId")]⟩

/-- The `load` Netlify function.  The `userId` query parameter is validated
before token verification; an empty string is falsy and also rejected with
400.  Both an unverifiable token and a verified identity that differs from the
requested `userId` produce the same 401 response. -/
def loadHandler (verify : String → Option UserInfo) (httpMethod : String)
    (authHeader : Option String) (queryUserId : Option String) :
    HttpResponse :=
  if httpMethod = "OPTIONS" then ⟨200, Json.str ""⟩
  else if httpMethod ≠ "GET" then
    ⟨405, mkErr "Method not allowed" "This endpoint only accepts GET requests"⟩
  else
    match authHeader with
    | none =>
      ⟨401, mkErr "Missing or invalid authorization header"
        "Please provide a valid Bearer token"⟩
    | some h =>
      if ¬ strStartsWith h "Bearer " then
        ⟨401, mkErr "Missing or invalid authorization header"
          "Please provide a valid Bearer token"⟩
      else
        match queryUserId with
        | none =>
          ⟨400, mkErr "Missing userId parameter"
            "The userId query parameter is required"⟩
        | some uid =>
          if uid = "" then
            ⟨400, mkErr "Missing userId parameter"
              "The userId query parameter is required"⟩
          else
            match verify (strDrop h 7) with
            | none =>
              ⟨401, mkErr "Invalid token or user mismatch"
                "The provided token does not match the requested user"⟩
            | some info =>
              if info.id ≠ uid then
                ⟨401, mkErr "Invalid token or user mismatch"
                  "The provided token does not match the requested user"⟩
              else
                ⟨200, Json.obj
                  [("success", Json.bool true),
                   ("data", Json.null),
                   ("timestamp", Json.null),
                   ("message",
                     Json.str "No saved data found (this is normal for new users)"),
                   ("userId", Json.str uid)]⟩

/-! ## Store and key lemmas -/

theorem Store.getItem_setItem_self (s : Store) (k : String) (v : Json) :
    Store.getItem (Store.setItem s k v) k = some v := by
  induction s with
  | nil => simp [Store.setItem, Store.getItem]
  | cons p rest ih =>
    by_cases h : p.1 = k
    · simp [Store.setItem, Store.getItem, h]
    · simp [Store.setItem, Store.getItem, h, ih]

theorem Store.getItem_setItem_ne (s : Store) (k k2 : String) (v : Json)
    (h : k ≠ k2) :
    Store.getItem (Store.setItem s k v) k2 = Store.getItem s k2 := by
  induction s with
  | nil => simp [Store.setItem, Store.getItem, h]
  | cons p rest ih =>
    by_cases h2 : p.1 = k
    · simp [Store.setItem, Store.getItem, h2, h]
    · simp only [Store.setItem, Store.getItem, if_neg h2]
      by_cases h3 : p.1 = k2
      · simp [h3]
      · simp [h3, ih]

theorem dataKey_ne_lastModifiedKey (user : Option User) :
    getStorageKey user "data" ≠ getStorageKey user "last-modified" := by
  intro h
  cases user with
  | none =>
    have h2 := congrArg String.length h
    simp [getStorageKey, String.length_append] at h2
    exact absurd h2 (by decide)
  | some u =>
    have h2 := congrArg String.length h
    simp [getStorageKey, String.length_append] at h2
    exact absurd h2 (by decide)

theorem storageKey_ne_token (user : Option User) (suffix : String) :
    getStorageKey user suffix ≠ "google-access-token" := by
  intro h
  cases user with
  | none =>
    have h2 := congrArg String.data h
    simp only [getStorageKey, String.data_append] at h2
    simp [String.data] at h2
  | some u =>
    have h2 := congrArg String.data h
    simp only [getStorageKey, String.data_append] at h2
    simp [String.data] at h2

theorem saveToLocal_getItem_data (user : Option User) (now : String)
    (store : Store) (d : Json) :
    Store.getItem (saveToLocal user now store d) (getStorageKey user "data") =
      some d := by
  unfold saveToLocal
  rw [Store.getItem_setItem_ne _ _ _ _ (dataKey_ne_lastModifiedKey user).symm]
  exact Store.getItem_setItem_self _ _ _

theorem saveToLocal_getItem_other (user : Option User) (now : String)
    (store : Store) (d : Json) (k : String)
    (h1 : k ≠ getStorageKey user "data")
    (h2 : k ≠ getStorageKey user "last-modified") :
    Store.getItem (saveToLocal user now store d) k = Store.getItem store k := by
  unfold saveToLocal
  rw [Store.getItem_setItem_ne _ _ _ _ h2.symm,
      Store.getItem_setItem_ne _ _ _ _ h1.symm]

theorem getAccessToken_saveToLocal (user : Option User) (now : String)
    (store : Store) (d : Json) :
    getAccessToken (saveToLocal user now store d) = getAccessToken store := by
  unfold getAccessToken
  rw [saveToLocal_getItem_other user now store d _
    (storageKey_ne_token user "data").symm
    (storageKey_ne_token user "last-modified").symm]

/-! ## State-transition helper lemmas -/

theorem updateSyncStatus_syncStatus (st : SyncState) (s : SyncStatus)
    (now : String) : (updateSyncStatus st s now).syncStatus = s := by
  unfold updateSyncStatus
  split <;> rfl

theorem updateSyncStatus_store (st : SyncState) (s : SyncStatus)
    (now : String) : (updateSyncStatus st s now).store = st.store := by
  unfold updateSyncStatus
  split <;> rfl

theorem updateSyncStatus_appData (st : SyncState) (s : SyncStatus)
    (now : String) : (updateSyncStatus st s now).appData = st.appData := by
  unfold updateSyncStatus
  split <;> rfl

theorem updateSyncStatus_error_of_ne (st : SyncState) (s : SyncStatus)
    (now : String) (h : s ≠ SyncStatus.synced) :
    (updateSyncStatus st s now).error = st.error := by
  unfold updateSyncStatus
  rw [if_neg h]

/-- Claim C1: on a sync invocation with a truthy snapshot and an
authenticated user, the snapshot is committed to the Local Store data key in
every outcome of the remote attempt, and when the remote save fails the status
is `error` with the failure message retained while the Local Store still holds
the snapshot — the local write is never rolled back. -/
theorem handleSync_local_first (cfg : StorageConfig) (u : User) (d : Json)
    (st : SyncState) (resp : FetchResult) (now : String)
    (hd : truthy d = true) (hend : cfg.endpoint ≠ "") :
    Store.getItem (handleSync cfg (some u) true d st resp now).store
      (getStorageKey (some u) "data") = some d ∧
    (∀ msg,
      saveToCloud cfg (some u) (saveToLocal (some u) now st.store d) resp =
        Except.error msg →
      (handleSync cfg (some u) true d st resp now).syncStatus =
        SyncStatus.error ∧
      (handleSync cfg (some u) true d st resp now).error = some msg) := by
  have hguard :
      ¬ (truthy d = false ∨ true = false ∨ (some u : Option User) = none) := by
    simp [hd]
  unfold handleSync
  rw [if_neg hguard, if_neg hend]
  have hst : (updateSyncStatus st SyncStatus.syncing now).store = st.store := rfl
  rw [hst]
  cases hsc : saveToCloud cfg (some u) (saveToLocal (some u) now st.store d)
      resp with
  | ok b =>
    constructor
    · rw [updateSyncStatus_store]
      exact saveToLocal_getItem_data _ _ _ _
    · intro msg hmsg
      exact Except.noConfusion hmsg
  | error m =>
    constructor
    · rw [updateSyncStatus_store]
      exact saveToLocal_getItem_data _ _ _ _
    · intro msg hmsg
      injection hmsg with hm
      subst hm
      refine ⟨updateSyncStatus_syncStatus _ _ _, ?_⟩
      dsimp only
      rw [updateSyncStatus_error_of_ne _ _ _ (by decide)]

/-- Concrete check of `handleSync_local_first`: a 401 save failure, with a
non-empty snapshot and an authenticated user holding a token, ends in the
`error` status carrying the auth-expired message while the Local Store still
holds the mutated snapshot. -/
theorem handleSync_local_first_check :
    truthy (Json.obj [("a", Json.bool true)]) = true ∧
    ("https://api.example.com" : String) ≠ "" ∧
    Store.getItem
      (handleSync ⟨"https://api.example.com", true⟩
        (some ⟨"u1", "u1@example.com", "User One", "User"⟩) true
        (Json.obj [("a", Json.bool true)])
        ⟨SyncStatus.idle, none, none,
          [("google-access-token", Json.str "tok")], Json.obj []⟩
        (FetchResult.httpError 401) "t1").store
      (getStorageKey (some ⟨"u1", "u1@example.com", "User One", "User"⟩)
        "data") = some (Json.obj [("a", Json.bool true)]) ∧
    (handleSync ⟨"https://api.example.com", true⟩
        (some ⟨"u1", "u1@example.com", "User One", "User"⟩) true
        (Json.obj [("a", Json.bool true)])
        ⟨SyncStatus.idle, none, none,
          [("google-access-token", Json.str "tok")], Json.obj []⟩
        (FetchResult.httpError 401) "t1").syncStatus = SyncStatus.error ∧
    (handleSync ⟨"https://api.example.com", true⟩
        (some ⟨"u1", "u1@example.com", "User One", "User"⟩) true
        (Json.obj [("a", Json.bool true)])
        ⟨SyncStatus.idle, none, none,
          [("google-access-token", Json.str "tok")], Json.obj []⟩
        (FetchResult.httpError 401) "t1").error =
      some "Authentication expired. Please sign out and sign in again." := by
  have h := handleSync_local_first ⟨"https://api.example.com", true⟩
    ⟨"u1", "u1@example.com", "User One", "User"⟩
    (Json.obj [("a", Json.bool true)])
    ⟨SyncStatus.idle, none, none,
      [("google-access-token", Json.str "tok")], Json.obj []⟩
    (FetchResult.httpError 401) "t1" rfl (by decide)
  exact ⟨rfl, by decide, h.1, (h.2 _ rfl).1, (h.2 _ rfl).2⟩

/-- Claim C2: N mutations arriving within the 2-second debounce window (auto
sync enabled, user authenticated, each mutation passing the effect's guard)
produce exactly one sync invocation, at the last mutation's time plus the
delay, carrying the snapshot as of the last mutation; every earlier pending
timer is cancelled by its successor. -/
theorem autoSync_debounce_collapses (ms : List (Nat × Json))
    (hne : ms ≠ [])
    (hwin : withinWindow debounceDelay ms = true)
    (hg : ms.all (fun m => autoSyncGuard true true m.2) = true) :
    ∃ m, ms.getLast? = some m ∧
      debounceRuns debounceDelay (autoSyncGuard true true) ms =
        [(m.1 + debounceDelay, m.2)] := by
  induction ms with
  | nil => exact absurd rfl hne
  | cons p tl ih =>
    obtain ⟨t, d⟩ := p
    cases tl with
    | nil =>
      have hgd : autoSyncGuard true true d = true := by
        simp [List.all_cons] at hg
        exact hg
      refine ⟨(t, d), rfl, ?_⟩
      simp [debounceRuns, hgd]
    | cons q tl2 =>
      obtain ⟨t2, d2⟩ := q
      have hlt : t2 < t + debounceDelay := by
        simp [withinWindow] at hwin
        exact hwin.1
      have hwin2 : withinWindow debounceDelay ((t2, d2) :: tl2) = true := by
        simp [withinWindow] at hwin ⊢
        exact hwin.2
      have hg2 :
          ((t2, d2) :: tl2).all (fun m => autoSyncGuard true true m.2) =
            true := by
        simp [List.all_cons] at hg ⊢
        exact hg.2
      obtain ⟨m, hm1, hm2⟩ := ih (by simp) hwin2 hg2
      refine ⟨m, ?_, ?_⟩
      · rw [List.getLast?_cons_cons]
        exact hm1
      · have hcond :
            (autoSyncGuard true true d && decide (t + debounceDelay ≤ t2)) =
              false := by
          simp [Nat.not_le_of_lt hlt]
        simp only [debounceRuns, hcond, Bool.false_eq_true, if_false]
        exact hm2

/-- Concrete check of `autoSync_debounce_collapses`: three mutations at 0ms,
500ms and 1000ms collapse to a single sync at 3000ms carrying the last
snapshot. -/
theorem autoSync_debounce_collapses_check :
    ([((0 : Nat), Json.obj [("a", Json.bool true)]),
      (500, Json.obj [("a", Json.bool false)]),
      (1000, Json.obj [("b", Json.bool true)])] : List (Nat × Json)) ≠ [] ∧
    withinWindow debounceDelay
      [((0 : Nat), Json.obj [("a", Json.bool true)]),
       (500, Json.obj [("a", Json.bool false)]),
       (1000, Json.obj [("b", Json.bool true)])] = true ∧
    ([((0 : Nat), Json.obj [("a", Json.bool true)]),
      (500, Json.obj [("a", Json.bool false)]),
      (1000, Json.obj [("b", Json.bool true)])]).all
      (fun m => autoSyncGuard true true m.2) = true ∧
    (∃ m,
      ([((0 : Nat), Json.obj [("a", Json.bool true)]),
        (500, Json.obj [("a", Json.bool false)]),
        (1000, Json.obj [("b", Json.bool true)])]).getLast? = some m ∧
      debounceRuns debounceDelay (autoSyncGuard true true)
        [((0 : Nat), Json.obj [("a", Json.bool true)]),
         (500, Json.obj [("a", Json.bool false)]),
         (1000, Json.obj [("b", Json.bool true)])] =
        [(m.1 + debounceDelay, m.2)]) :=
  ⟨by simp, by decide, by decide,
   autoSync_debounce_collapses _ (by simp) (by decide) (by decide)⟩

/-- Every sync invocation produced by the debounce machinery comes from a
mutation that passed the effect's guard. -/
theorem debounceRuns_mem_guard (delay : Nat) (g : Json → Bool)
    (ms : List (Nat × Json)) (x : Nat × Json)
    (hx : x ∈ debounceRuns delay g ms) : g x.2 = true := by
  induction ms with
  | nil => simp [debounceRuns] at hx
  | cons p tl ih =>
    obtain ⟨t, d⟩ := p
    cases tl with
    | nil =>
      by_cases hgd : g d = true
      · simp [debounceRuns, hgd] at hx
        rw [hx]
        exact hgd
      · simp [debounceRuns, hgd] at hx
    | cons q tl2 =>
      obtain ⟨t2, d2⟩ := q
      by_cases hc : (g d && decide (t + delay ≤ t2)) = true
      · simp only [debounceRuns, hc, if_true] at hx
        rcases List.mem_cons.mp hx with h1 | h2
        · rw [h1]
          exact (Bool.and_eq_true_iff.mp hc).1
        · exact ih h2
      · simp only [debounceRuns, Bool.not_eq_true] at hc ⊢
        simp only [debounceRuns, hc, Bool.false_eq_true, if_false] at hx
        exact ih hx

/-- Claim C10: the auto-sync effect is guarded on the snapshot being
non-empty — a snapshot with zero keys never passes the guard, so the
change-detection path never arms a timer for it and no sync ever fires
carrying an empty snapshot, even with auto-sync enabled and the user
authenticated. -/
theorem autoSync_empty_snapshot (d : Json) (hk : keysLength d = 0) :
    autoSyncGuard true true d = false ∧
    ∀ ms fireTime,
      (fireTime, d) ∈ debounceRuns debounceDelay (autoSyncGuard true true) ms →
        False := by
  have hguard : autoSyncGuard true true d = false := by
    simp [autoSyncGuard, hk]
  refine ⟨hguard, ?_⟩
  intro ms fireTime hmem
  have hg := debounceRuns_mem_guard _ _ _ _ hmem
  rw [hguard] at hg
  exact Bool.false_ne_true hg

/-- Concrete check of `autoSync_empty_snapshot` at the empty snapshot. -/
theorem autoSync_empty_snapshot_check :
    keysLength (Json.obj []) = 0 ∧
    autoSyncGuard true true (Json.obj []) = false :=
  ⟨rfl, (autoSync_empty_snapshot (Json.obj []) rfl).1⟩

/-- Claim C3: on the explicit cloud-load path, a successful fetch whose body
carries a truthy `data` payload overwrites both the in-memory state and the
Local Store data entry with exactly the remote payload — whatever local
snapshot was there before, no merge is performed — and the status ends at
`synced`. -/
theorem handleCloudLoad_remote_wins (cfg : StorageConfig) (u : User)
    (st : SyncState) (body : Json) (now tok : String)
    (hend : cfg.endpoint ≠ "")
    (htok : getAccessToken st.store = some tok)
    (hB : truthy (body.getField "data") = true) :
    (handleCloudLoad cfg (some u) true st (FetchResult.ok body) now).appData =
      body.getField "data" ∧
    Store.getItem
      (handleCloudLoad cfg (some u) true st (FetchResult.ok body) now).store
      (getStorageKey (some u) "data") = some (body.getField "data") ∧
    (handleCloudLoad cfg (some u) true st
        (FetchResult.ok body) now).syncStatus = SyncStatus.synced := by
  have hguard : ¬ (true = false ∨ (some u : Option User) = none) := by simp
  have hpre : ¬ (cfg.endpoint = "" ∨ (some u : Option User) = none) := by
    simp [hend]
  have hst : getAccessToken
      (updateSyncStatus (updateSyncStatus st SyncStatus.syncing now)
        SyncStatus.syncing now).store = some tok := htok
  simp only [handleCloudLoad, loadFromCloud, if_neg hguard, if_neg hpre, hst,
    hB, eq_self_iff_true, if_true]
  refine ⟨?_, ?_, ?_⟩
  · rw [updateSyncStatus_appData]
  · rw [updateSyncStatus_store]
    exact saveToLocal_getItem_data _ _ _ _
  · exact updateSyncStatus_syncStatus _ _ _

/-- Concrete check of `handleCloudLoad_remote_wins`: local snapshot A and
remote snapshot B differ; after the cloud load, memory and the Local Store
hold exactly B. -/
theorem handleCloudLoad_remote_wins_check :
    ("https://api.example.com" : String) ≠ "" ∧
    getAccessToken
      [("checklist-u1-data", Json.obj [("a", Json.bool true)]),
       ("google-access-token", Json.str "tok")] = some "tok" ∧
    truthy ((Json.obj [("success", Json.bool true),
      ("data", Json.obj [("b", Json.bool false)])]).getField "data") = true ∧
    (handleCloudLoad ⟨"https://api.example.com", true⟩
        (some ⟨"u1", "u1@example.com", "User One", "User"⟩) true
        ⟨SyncStatus.idle, none, none,
          [("checklist-u1-data", Json.obj [("a", Json.bool true)]),
           ("google-access-token", Json.str "tok")],
          Json.obj [("a", Json.bool true)]⟩
        (FetchResult.ok (Json.obj [("success", Json.bool true),
          ("data", Json.obj [("b", Json.bool false)])])) "t1").appData =
      (Json.obj [("success", Json.bool true),
        ("data", Json.obj [("b", Json.bool false)])]).getField "data" ∧
    Store.getItem
      (handleCloudLoad ⟨"https://api.example.com", true⟩
        (some ⟨"u1", "u1@example.com", "User One", "User"⟩) true
        ⟨SyncStatus.idle, none, none,
          [("checklist-u1-data", Json.obj [("a", Json.bool true)]),
           ("google-access-token", Json.str "tok")],
          Json.obj [("a", Json.bool true)]⟩
        (FetchResult.ok (Json.obj [("success", Json.bool true),
          ("data", Json.obj [("b", Json.bool false)])])) "t1").store
      (getStorageKey (some ⟨"u1", "u1@example.com", "User One", "User"⟩)
        "data") =
      some ((Json.obj [("success", Json.bool true),
        ("data", Json.obj [("b", Json.bool false)])]).getField "data") ∧
    (handleCloudLoad ⟨"https://api.example.com", true⟩
        (some ⟨"u1", "u1@example.com", "User One", "User"⟩) true
        ⟨SyncStatus.idle, none, none,
          [("checklist-u1-data", Json.obj [("a", Json.bool true)]),
           ("google-access-token", Json.str "tok")],
          Json.obj [("a", Json.bool true)]⟩
        (FetchResult.ok (Json.obj [("success", Json.bool true),
          ("data", Json.obj [("b", Json.bool false)])])) "t1").syncStatus =
      SyncStatus.synced := by
  have h := handleCloudLoad_remote_wins ⟨"https://api.example.com", true⟩
    ⟨"u1", "u1@example.com", "User One", "User"⟩
    ⟨SyncStatus.idle, none, none,
      [("checklist-u1-data", Json.obj [("a", Json.bool true)]),
       ("google-access-token", Json.str "tok")],
      Json.obj [("a", Json.bool true)]⟩
    (Json.obj [("success", Json.bool true),
      ("data", Json.obj [("b", Json.bool false)])]) "t1" "tok"
    (by decide) rfl rfl
  exact ⟨by decide, rfl, rfl, h.1, h.2.1, h.2.2⟩

/-- Counterexample to claim C4: a 403 response on the save or load path is
surfaced as the generic `HTTP error! status: 403` message, not as the
auth-expired condition — only 401 receives the distinct re-authentication
message. -/
theorem saveToCloud_403_generic_cx :
    saveToCloud ⟨"https://api.example.com", true⟩
        (some ⟨"u1", "u1@example.com", "User One", "User"⟩)
        [("google-access-token", Json.str "tok")]
        (FetchResult.httpError 403) =
      Except.error "HTTP error! status: 403" ∧
    (loadFromCloud ⟨"https://api.example.com", true⟩
        (some ⟨"u1", "u1@example.com", "User One", "User"⟩)
        ⟨SyncStatus.idle, none, none,
          [("google-access-token", Json.str "tok")], Json.obj []⟩
        (FetchResult.httpError 403) "t").2 =
      Except.error "HTTP error! status: 403" ∧
    ("HTTP error! status: 403" : String) ≠
      "Authentication expired. Please sign out and sign in again." :=
  ⟨rfl, rfl, by decide⟩

/-- Claim C4 (amended): only a 401 response is surfaced as the auth-expired
condition on the save and load paths; a 403 — like every other non-2xx
status — is surfaced as the generic HTTP error message. -/
theorem authExpired_only_401 (cfg : StorageConfig) (u : User) (store : Store)
    (st : SyncState) (now tok tok2 : String) (status : Nat)
    (hend : cfg.endpoint ≠ "")
    (htok : getAccessToken store = some tok)
    (htok2 : getAccessToken st.store = some tok2) :
    (status = 401 →
      saveToCloud cfg (some u) store (FetchResult.httpError status) =
        Except.error
          "Authentication expired. Please sign out and sign in again." ∧
      (loadFromCloud cfg (some u) st (FetchResult.httpError status) now).2 =
        Except.error
          "Authentication expired. Please sign out and sign in again.") ∧
    (status ≠ 401 →
      saveToCloud cfg (some u) store (FetchResult.httpError status) =
        Except.error ("HTTP error! status: " ++ toString status) ∧
      (loadFromCloud cfg (some u) st (FetchResult.httpError status) now).2 =
        Except.error ("HTTP error! status: " ++ toString status)) := by
  have hpre : ¬ (cfg.endpoint = "" ∨ (some u : Option User) = none) := by
    simp [hend]
  have hst : getAccessToken
      (updateSyncStatus st SyncStatus.syncing now).store = some tok2 := htok2
  constructor
  · intro h401
    subst h401
    refine ⟨?_, ?_⟩
    · simp [saveToCloud, hend, htok]
    · simp [loadFromCloud, hend, hst]
  · intro hne
    refine ⟨?_, ?_⟩
    · simp [saveToCloud, hend, htok, hne]
    · simp [loadFromCloud, hend, hst, hne]

/-- Concrete check of `authExpired_only_401`: 401 yields the auth-expired
message, 403 yields the generic message. -/
theorem authExpired_only_401_check :
    ("https://api.example.com" : String) ≠ "" ∧
    getAccessToken [("google-access-token", Json.str "tok")] = some "tok" ∧
    saveToCloud ⟨"https://api.example.com", true⟩
        (some ⟨"u1", "u1@example.com", "User One", "User"⟩)
        [("google-access-token", Json.str "tok")]
        (FetchResult.httpError 401) =
      Except.error
        "Authentication expired. Please sign out and sign in again." ∧
    saveToCloud ⟨"https://api.example.com", true⟩
        (some ⟨"u1", "u1@example.com", "User One", "User"⟩)
        [("google-access-token", Json.str "tok")]
        (FetchResult.httpError 403) =
      Except.error ("HTTP error! status: " ++ toString 403) := by
  have h401 := authExpired_only_401 ⟨"https://api.example.com", true⟩
    ⟨"u1", "u1@example.com", "User One", "User"⟩
    [("google-access-token", Json.str "tok")]
    ⟨SyncStatus.idle, none, none,
      [("google-access-token", Json.str "tok")], Json.obj []⟩
    "t" "tok" "tok" 401 (by decide) rfl rfl
  have h403 := authExpired_only_401 ⟨"https://api.example.com", true⟩
    ⟨"u1", "u1@example.com", "User One", "User"⟩
    [("google-access-token", Json.str "tok")]
    ⟨SyncStatus.idle, none, none,
      [("google-access-token", Json.str "tok")], Json.obj []⟩
    "t" "tok" "tok" 403 (by decide) rfl rfl
  exact ⟨by decide, rfl, (h401.1 rfl).1, (h403.2 (by decide)).1⟩

/-- Counterexample to claim C5: a cloud-load invocation through
`handleCloudLoad` whose fetch fails ends at status `error`, not `offline` —
the transient `offline` set inside `loadFromCloud` is overwritten by the
wrapper's catch block. -/
theorem handleCloudLoad_failure_status_cx :
    (handleCloudLoad ⟨"https://api.example.com", true⟩
        (some ⟨"u1", "u1@example.com", "User One", "User"⟩) true
        ⟨SyncStatus.idle, none, none,
          [("google-access-token", Json.str "tok")], Json.obj []⟩
        (FetchResult.networkError "Failed to fetch") "t").syncStatus =
      SyncStatus.error ∧
    SyncStatus.error ≠ SyncStatus.offline :=
  ⟨rfl, by decide⟩

/-- On any failing fetch (missing token, non-2xx response, network error),
`loadFromCloud` leaves the status at `offline` and the store untouched before
rethrowing. -/
theorem loadFromCloud_error_state (cfg : StorageConfig) (u : User)
    (st : SyncState) (resp : FetchResult) (now msg : String)
    (hend : cfg.endpoint ≠ "")
    (hfail : (loadFromCloud cfg (some u) st resp now).2 = Except.error msg) :
    (loadFromCloud cfg (some u) st resp now).1.syncStatus =
      SyncStatus.offline ∧
    (loadFromCloud cfg (some u) st resp now).1.store = st.store := by
  have hpre : ¬ (cfg.endpoint = "" ∨ (some u : Option User) = none) := by
    simp [hend]
  simp only [loadFromCloud, if_neg hpre] at hfail ⊢
  cases hak : getAccessToken (updateSyncStatus st SyncStatus.syncing now).store
      with
  | none =>
    simp only [hak]
    refine ⟨updateSyncStatus_syncStatus _ _ _, ?_⟩
    rw [updateSyncStatus_store, updateSyncStatus_store]
  | some tok =>
    simp only [hak] at hfail ⊢
    cases resp with
    | ok body => simp at hfail
    | httpError s =>
      refine ⟨updateSyncStatus_syncStatus _ _ _, ?_⟩
      rw [updateSyncStatus_store, updateSyncStatus_store]
    | networkError m =>
      refine ⟨updateSyncStatus_syncStatus _ _ _, ?_⟩
      rw [updateSyncStatus_store, updateSyncStatus_store]

/-- Claim C5 (amended): on a failing fetch, `loadFromCloud` transitions to
`offline` and rethrows; the explicit cloud-load wrapper `handleCloudLoad`
catches the rethrown error, surfaces the message, and ends at status `error`
(overwriting the transient `offline`); the Local Store contents are left
untouched in either rendering. -/
theorem handleCloudLoad_failure_error_state (cfg : StorageConfig) (u : User)
    (st : SyncState) (resp : FetchResult) (now msg : String)
    (hend : cfg.endpoint ≠ "")
    (hfail : (loadFromCloud cfg (some u)
        (updateSyncStatus st SyncStatus.syncing now) resp now).2 =
      Except.error msg) :
    (handleCloudLoad cfg (some u) true st resp now).syncStatus =
      SyncStatus.error ∧
    (handleCloudLoad cfg (some u) true st resp now).error = some msg ∧
    (handleCloudLoad cfg (some u) true st resp now).store = st.store ∧
    (loadFromCloud cfg (some u) (updateSyncStatus st SyncStatus.syncing now)
        resp now).1.syncStatus = SyncStatus.offline := by
  have hguard : ¬ (true = false ∨ (some u : Option User) = none) := by simp
  have haux := loadFromCloud_error_state cfg u
    (updateSyncStatus st SyncStatus.syncing now) resp now msg hend hfail
  simp only [handleCloudLoad, if_neg hguard]
  rcases hres : loadFromCloud cfg (some u)
      (updateSyncStatus st SyncStatus.syncing now) resp now with ⟨st2, res⟩
  rw [hres] at hfail haux
  cases res with
  | ok v => simp at hfail
  | error m =>
    have hm : m = msg := by
      simp only at hfail
      injection hfail
    subst hm
    refine ⟨?_, ?_, ?_, ?_⟩
    · show (updateSyncStatus { st2 with error := some m }
        SyncStatus.error now).syncStatus = SyncStatus.error
      exact updateSyncStatus_syncStatus _ _ _
    · show (updateSyncStatus { st2 with error := some m }
        SyncStatus.error now).error = some m
      rw [updateSyncStatus_error_of_ne _ _ _ (by decide)]
    · show (updateSyncStatus { st2 with error := some m }
        SyncStatus.error now).store = st.store
      rw [updateSyncStatus_store]
      show st2.store = st.store
      have h2 := haux.2
      simp only at h2
      rw [h2, updateSyncStatus_store]
    · exact haux.1

/-- Concrete check of `handleCloudLoad_failure_error_state`: a 500 response
ends the wrapper at `error` carrying the generic message. -/
theorem handleCloudLoad_failure_error_state_check :
    ("https://api.example.com" : String) ≠ "" ∧
    (loadFromCloud ⟨"https://api.example.com", true⟩
        (some ⟨"u1", "u1@example.com", "User One", "User"⟩)
        (updateSyncStatus
          ⟨SyncStatus.idle, none, none,
            [("google-access-token", Json.str "tok")], Json.obj []⟩
          SyncStatus.syncing "t")
        (FetchResult.httpError 500) "t").2 =
      Except.error "HTTP error! status: 500" ∧
    (handleCloudLoad ⟨"https://api.example.com", true⟩
        (some ⟨"u1", "u1@example.com", "User One", "User"⟩) true
        ⟨SyncStatus.idle, none, none,
          [("google-access-token", Json.str "tok")], Json.obj []⟩
        (FetchResult.httpError 500) "t").syncStatus = SyncStatus.error ∧
    (handleCloudLoad ⟨"https://api.example.com", true⟩
        (some ⟨"u1", "u1@example.com", "User One", "User"⟩) true
        ⟨SyncStatus.idle, none, none,
          [("google-access-token", Json.str "tok")], Json.obj []⟩
        (FetchResult.httpError 500) "t").error =
      some "HTTP error! status: 500" := by
  have h := handleCloudLoad_failure_error_state ⟨"https://api.example.com", true⟩
    ⟨"u1", "u1@example.com", "User One", "User"⟩
    ⟨SyncStatus.idle, none, none,
      [("google-access-token", Json.str "tok")], Json.obj []⟩
    (FetchResult.httpError 500) "t" "HTTP error! status: 500"
    (by decide) rfl
  exact ⟨by decide, rfl, h.1, h.2.1⟩

/-- Counterexample to claim C6: with quota left for the data write but not for
the timestamp write, the two sequential `setItem` calls of `saveToLocal`
produce a partial write — the data entry is updated while the last-modified
entry keeps its prior value, so the prior stored state is neither fully
replaced nor left untouched. -/
theorem saveToLocal_partial_write_cx :
    Store.getItem
      (saveToLocalQ (fun _ k _ => k == "checklist-u1-data")
        (some ⟨"u1", "u1@example.com", "User One", "User"⟩) "t1"
        [("checklist-u1-data", Json.bool false),
         ("checklist-u1-last-modified", Json.str "t0")]
        (Json.obj [("a", Json.bool true)])) "checklist-u1-data" =
      some (Json.obj [("a", Json.bool true)]) ∧
    Store.getItem
      (saveToLocalQ (fun _ k _ => k == "checklist-u1-data")
        (some ⟨"u1", "u1@example.com", "User One", "User"⟩) "t1"
        [("checklist-u1-data", Json.bool false),
         ("checklist-u1-last-modified", Json.str "t0")]
        (Json.obj [("a", Json.bool true)])) "checklist-u1-last-modified" =
      some (Json.str "t0") ∧
    saveToLocalQ (fun _ k _ => k == "checklist-u1-data")
        (some ⟨"u1", "u1@example.com", "User One", "User"⟩) "t1"
        [("checklist-u1-data", Json.bool false),
         ("checklist-u1-last-modified", Json.str "t0")]
        (Json.obj [("a", Json.bool true)]) ≠
      [("checklist-u1-data", Json.bool false),
       ("checklist-u1-last-modified", Json.str "t0")] := by
  refine ⟨rfl, rfl, ?_⟩
  intro h
  have h2 : (some (Json.obj [("a", Json.bool true)]) : Option Json) =
      some (Json.bool false) :=
    congrArg (fun s => Store.getItem s "checklist-u1-data") h
  exact Json.noConfusion (Option.some.inj h2)

/-- Claim C6 (amended): `saveToLocal` under explicit per-write failure
semantics reaches exactly one of three stores — untouched (data write
failed), data entry only (timestamp write failed after a successful data
write: a partial write), or both entries written; a failure of the first
(data) write leaves the prior state entirely untouched; entries under other
keys are never affected; and in every case a store is returned — the failure
is non-fatal to the caller. -/
theorem saveToLocalQ_outcomes (canW : Store → String → Json → Bool)
    (user : Option User) (now : String) (store : Store) (d : Json) :
    (saveToLocalQ canW user now store d = store ∨
     saveToLocalQ canW user now store d =
       Store.setItem store (getStorageKey user "data") d ∨
     saveToLocalQ canW user now store d = saveToLocal user now store d) ∧
    (canW store (getStorageKey user "data") d = false →
      saveToLocalQ canW user now store d = store) ∧
    (∀ k, k ≠ getStorageKey user "data" →
      k ≠ getStorageKey user "last-modified" →
      Store.getItem (saveToLocalQ canW user now store d) k =
        Store.getItem store k) := by
  by_cases h1 : canW store (getStorageKey user "data") d = true
  · by_cases h2 : canW (Store.setItem store (getStorageKey user "data") d)
        (getStorageKey user "last-modified") (Json.str now) = true
    · have hval : saveToLocalQ canW user now store d =
          saveToLocal user now store d := by
        unfold saveToLocalQ Store.trySetItem
        rw [if_pos h1]
        dsimp only
        rw [if_pos h2]
        rfl
      refine ⟨Or.inr (Or.inr hval), ?_, ?_⟩
      · intro hc
        rw [h1] at hc
        exact absurd hc (by decide)
      · intro k hk1 hk2
        rw [hval]
        unfold saveToLocal
        rw [Store.getItem_setItem_ne _ _ _ _ (fun he => hk2 he.symm),
          Store.getItem_setItem_ne _ _ _ _ (fun he => hk1 he.symm)]
    · have hval : saveToLocalQ canW user now store d =
          Store.setItem store (getStorageKey user "data") d := by
        unfold saveToLocalQ Store.trySetItem
        rw [if_pos h1]
        dsimp only
        rw [if_neg h2]
      refine ⟨Or.inr (Or.inl hval), ?_, ?_⟩
      · intro hc
        rw [h1] at hc
        exact absurd hc (by decide)
      · intro k hk1 hk2
        rw [hval]
        rw [Store.getItem_setItem_ne _ _ _ _ (fun he => hk1 he.symm)]
  · have hval : saveToLocalQ canW user now store d = store := by
      unfold saveToLocalQ Store.trySetItem
      rw [if_neg h1]
    exact ⟨Or.inl hval, fun _ => hval, fun k hk1 hk2 => by rw [hval]⟩

/-- Concrete check of `saveToLocalQ_outcomes`: with no quota at all, the store
is left untouched and no error escapes. -/
theorem saveToLocalQ_outcomes_check :
    (fun (_ : Store) (_ : String) (_ : Json) => false)
      ([] : Store) (getStorageKey
        (some ⟨"u1", "u1@example.com", "User One", "User"⟩) "data")
      (Json.bool true) = false ∧
    saveToLocalQ (fun _ _ _ => false)
      (some ⟨"u1", "u1@example.com", "User One", "User"⟩) "t1" []
      (Json.bool true) = [] :=
  ⟨rfl,
   (saveToLocalQ_outcomes (fun _ _ _ => false)
     (some ⟨"u1", "u1@example.com", "User One", "User"⟩) "t1" []
     (Json.bool true)).2.1 rfl⟩

/-- Invariant: `handleSync` never touches the parent's in-memory checklist state. -/
theorem handleSync_appData (cfg : StorageConfig) (user : Option User)
    (isAuth : Bool) (d : Json) (st : SyncState) (resp : FetchResult)
    (now : String) :
    (handleSync cfg user isAuth d st resp now).appData = st.appData := by
  unfold handleSync
  split
  · rfl
  · dsimp only
    split
    · simp [updateSyncStatus]
    · split <;> simp [updateSyncStatus]

/-- When its guard passes, `handleSync` always leaves the data prop it closed
over in the Local Store data entry, whatever the remote outcome. -/
theorem handleSync_getItem_data (cfg : StorageConfig) (u : User) (d : Json)
    (st : SyncState) (resp : FetchResult) (now : String)
    (hd : truthy d = true) :
    Store.getItem (handleSync cfg (some u) true d st resp now).store
      (getStorageKey (some u) "data") = some d := by
  have hguard :
      ¬ (truthy d = false ∨ true = false ∨ (some u : Option User) = none) := by
    simp [hd]
  unfold handleSync
  rw [if_neg hguard]
  by_cases hend : cfg.endpoint = ""
  · rw [if_pos hend, updateSyncStatus_store]
    exact saveToLocal_getItem_data _ _ _ _
  · rw [if_neg hend]
    cases saveToCloud cfg (some u)
        (saveToLocal (some u) now
          (updateSyncStatus st SyncStatus.syncing now).store d) resp with
    | ok b =>
      rw [updateSyncStatus_store]
      exact saveToLocal_getItem_data _ _ _ _
    | error m =>
      rw [updateSyncStatus_store]
      exact saveToLocal_getItem_data _ _ _ _

/-- Counterexample to claim C7: an artifact that parses as JSON but lacks a
`data` field is silently ignored — the state is unchanged and no format error
is reported; and when the `data` field is present with auto-sync and
authentication active, the immediately-triggered write path closes over the
stale render-time data prop and re-persists the pre-import snapshot, so the
Local Store ends the turn holding the pre-import value, not the imported
one. -/
theorem handleImport_missing_data_silent_cx :
    handleImport ⟨"", true⟩ none true
        ⟨SyncStatus.idle, none, none, [], Json.obj [("old", Json.bool true)]⟩
        (some (Json.obj [("notdata", Json.num 1)]))
        (FetchResult.networkError "x") "t" =
      ⟨SyncStatus.idle, none, none, [], Json.obj [("old", Json.bool true)]⟩ ∧
    (⟨SyncStatus.idle, none, none, [],
      Json.obj [("old", Json.bool true)]⟩ : SyncState).error = none ∧
    Store.getItem
      (handleImport ⟨"", true⟩
        (some ⟨"u1", "u1@example.com", "User One", "User"⟩) true
        ⟨SyncStatus.idle, none, none, [], Json.obj [("old", Json.bool true)]⟩
        (some (Json.obj [("data", Json.obj [("new", Json.bool true)])]))
        (FetchResult.networkError "x") "t").store
      "checklist-u1-data" = some (Json.obj [("old", Json.bool true)]) :=
  ⟨rfl, rfl, rfl⟩

/-- With a truthy `data` field, an import replaces the in-memory state with
the field's value; the Local Store receives it when no immediate sync fires,
while with auto-sync and authentication active the immediately triggered
write path re-persists the pre-import snapshot (the stale render-time data
prop) into the Local Store data entry. -/
theorem handleImport_truthy_data (cfg : StorageConfig) (user : Option User)
    (isAuth : Bool) (st : SyncState) (j : Json) (resp : FetchResult)
    (now : String) (htruthy : truthy (j.getField "data") = true) :
    (handleImport cfg user isAuth st (some j) resp now).appData =
      j.getField "data" ∧
    ((cfg.autoSync && isAuth) = false →
      Store.getItem
        (handleImport cfg user isAuth st (some j) resp now).store
        (getStorageKey user "data") = some (j.getField "data")) ∧
    ((cfg.autoSync && isAuth) = true → truthy st.appData = true →
      ∀ u, user = some u →
      Store.getItem
        (handleImport cfg user isAuth st (some j) resp now).store
        (getStorageKey user "data") = some st.appData) := by
  have hnull : j.isNull = false := by
    cases j <;> simp_all [Json.isNull, Json.getField, truthy]
  refine ⟨?_, ?_, ?_⟩
  · by_cases hAS : (cfg.autoSync && isAuth) = true
    · simp only [handleImport, hnull, Bool.false_eq_true, if_false,
        htruthy, if_true, hAS]
      rw [handleSync_appData]
    · simp only [Bool.not_eq_true] at hAS
      simp only [handleImport, hnull, Bool.false_eq_true, if_false,
        htruthy, if_true, hAS]
  · intro hASf
    simp only [handleImport, hnull, Bool.false_eq_true, if_false,
      htruthy, if_true, hASf]
    exact saveToLocal_getItem_data _ _ _ _
  · intro hASt hOld u hu
    subst hu
    have hia : isAuth = true := (Bool.and_eq_true_iff.mp hASt).2
    subst hia
    simp only [handleImport, hnull, Bool.false_eq_true, if_false,
      htruthy, if_true, hASt]
    exact handleSync_getItem_data _ _ _ _ _ _ hOld

/-- Claim C7 (amended): a parse failure (or a parsed `null`, whose `.data`
access throws) reports the format error; a parsed artifact without a truthy
`data` field is silently ignored — no error is reported and no state
changes; when the `data` field is present, the in-memory state is replaced
wholesale with it, and the Local Store receives it when no immediate sync
fires, while with auto-sync and authentication active the immediately
triggered write path re-persists the pre-import snapshot (the stale
render-time data prop) into the Local Store data entry. -/
theorem handleImport_behavior (cfg : StorageConfig) (user : Option User)
    (isAuth : Bool) (st : SyncState) (j : Json) (resp : FetchResult)
    (now : String) :
    (handleImport cfg user isAuth st none resp now =
      { st with error := some "Invalid backup file format" }) ∧
    (j.isNull = false → truthy (j.getField "data") = false →
      handleImport cfg user isAuth st (some j) resp now = st) ∧
    (truthy (j.getField "data") = true →
      (handleImport cfg user isAuth st (some j) resp now).appData =
        j.getField "data" ∧
      ((cfg.autoSync && isAuth) = false →
        Store.getItem
          (handleImport cfg user isAuth st (some j) resp now).store
          (getStorageKey user "data") = some (j.getField "data")) ∧
      ((cfg.autoSync && isAuth) = true → truthy st.appData = true →
        ∀ u, user = some u →
        Store.getItem
          (handleImport cfg user isAuth st (some j) resp now).store
          (getStorageKey user "data") = some st.appData)) := by
  refine ⟨rfl, ?_, ?_⟩
  · intro hnull hfalsy
    simp only [handleImport, hnull, Bool.false_eq_true, if_false, hfalsy]
  · intro htruthy
    exact handleImport_truthy_data cfg user isAuth st j resp now htruthy

/-- Concrete check of `handleImport_behavior`: an artifact without a `data`
field leaves the state untouched; an artifact with one replaces memory and
(with no immediate sync) the Local Store. -/
theorem handleImport_behavior_check :
    (Json.obj [("notdata", Json.num 1)]).isNull = false ∧
    truthy ((Json.obj [("notdata", Json.num 1)]).getField "data") = false ∧
    handleImport ⟨"", true⟩ none true
        ⟨SyncStatus.idle, none, none, [], Json.obj [("old", Json.bool true)]⟩
        (some (Json.obj [("notdata", Json.num 1)]))
        (FetchResult.networkError "x") "t" =
      ⟨SyncStatus.idle, none, none, [], Json.obj [("old", Json.bool true)]⟩ ∧
    truthy ((Json.obj [("data", Json.obj [("new", Json.bool true)])]).getField
      "data") = true ∧
    (handleImport ⟨"", true⟩ none false
        ⟨SyncStatus.idle, none, none, [], Json.obj [("old", Json.bool true)]⟩
        (some (Json.obj [("data", Json.obj [("new", Json.bool true)])]))
        (FetchResult.networkError "x") "t").appData =
      (Json.obj [("data", Json.obj [("new", Json.bool true)])]).getField
        "data" ∧
    Store.getItem
      (handleImport ⟨"", true⟩ none false
        ⟨SyncStatus.idle, none, none, [], Json.obj [("old", Json.bool true)]⟩
        (some (Json.obj [("data", Json.obj [("new", Json.bool true)])]))
        (FetchResult.networkError "x") "t").store
      (getStorageKey none "data") =
      some ((Json.obj [("data",
        Json.obj [("new", Json.bool true)])]).getField "data") := by
  have hA := handleImport_behavior ⟨"", true⟩ none true
    ⟨SyncStatus.idle, none, none, [], Json.obj [("old", Json.bool true)]⟩
    (Json.obj [("notdata", Json.num 1)]) (FetchResult.networkError "x") "t"
  have hB := handleImport_behavior ⟨"", true⟩ none false
    ⟨SyncStatus.idle, none, none, [], Json.obj [("old", Json.bool true)]⟩
    (Json.obj [("data", Json.obj [("new", Json.bool true)])])
    (FetchResult.networkError "x") "t"
  exact ⟨rfl, rfl, hA.2.1 rfl rfl, rfl, (hB.2.2 rfl).1, (hB.2.2 rfl).2.1 rfl⟩

/-- Counterexample to claim C8: the load endpoint rejects a request whose
`userId` differs from the token's verified identity with status 401 (shared
with the invalid-token case), not with the distinct 403 the claim asserts for
both endpoints. -/
theorem loadHandler_mismatch_401_cx :
    (loadHandler
        (fun t => if t = "tok" then some ⟨"u2", "u2@example.com"⟩ else none)
        "GET" (some "Bearer tok") (some "u1")).statusCode = 401 ∧
    (401 : Nat) ≠ 403 :=
  ⟨rfl, by decide⟩

/-- Claim C8 (amended): a save request whose body `userId` differs from the
token's verified identity is rejected with 403; a load request whose query
`userId` differs from the verified identity is rejected with 401, the same
status as an invalid token.  Neither endpoint holds any remote state — both
are stubs that log and echo — so no remote mutation can occur. -/
theorem auth_mismatch_statuses (verify : String → Option UserInfo)
    (hAuth tok uid now : String) (b : Json) (info : UserInfo)
    (hsw : strStartsWith hAuth "Bearer " = true)
    (hdrop : strDrop hAuth 7 = tok)
    (hv : verify tok = some info)
    (hsave : (b.getField "userId").eqStr info.id = false)
    (hload : info.id ≠ uid) (hne : uid ≠ "") :
    (saveHandler verify "POST" (some hAuth) (some b) now).statusCode = 403 ∧
    (loadHandler verify "GET" (some hAuth) (some uid)).statusCode = 401 := by
  constructor
  · unfold saveHandler
    rw [if_neg (by decide), if_neg (by decide)]
    dsimp only
    rw [if_neg (fun hcon => hcon hsw), hdrop, hv]
    dsimp only
    rw [if_pos hsave]
  · unfold loadHandler
    rw [if_neg (by decide), if_neg (by decide)]
    dsimp only
    rw [if_neg (fun hcon => hcon hsw)]
    rw [if_neg hne, hdrop, hv]
    dsimp only
    rw [if_pos hload]

/-- Concrete check of `auth_mismatch_statuses`: token verified as `u2`,
request asserts `u1` — save answers 403, load answers 401. -/
theorem auth_mismatch_statuses_check :
    strStartsWith "Bearer tok" "Bearer " = true ∧
    strDrop "Bearer tok" 7 = "tok" ∧
    (saveHandler
        (fun t => if t = "tok" then some ⟨"u2", "u2@example.com"⟩ else none)
        "POST" (some "Bearer tok")
        (some (Json.obj [("userId", Json.str "u1")])) "t").statusCode = 403 ∧
    (loadHandler
        (fun t => if t = "tok" then some ⟨"u2", "u2@example.com"⟩ else none)
        "GET" (some "Bearer tok") (some "u1")).statusCode = 401 := by
  have h := auth_mismatch_statuses
    (fun t => if t = "tok" then some ⟨"u2", "u2@example.com"⟩ else none)
    "Bearer tok" "tok" "u1" "t" (Json.obj [("userId", Json.str "u1")])
    ⟨"u2", "u2@example.com"⟩ rfl rfl rfl rfl (by decide) (by decide)
  exact ⟨rfl, rfl, h.1, h.2⟩

/-- Claim C9: importing the artifact produced by exporting a snapshot
reproduces the snapshot exactly in memory — the same key/value pairs —
independent of the export timestamp, the exporter identity metadata and the
version tag wrapped around it; when no immediate auto-sync fires, the Local
Store data entry also ends up holding exactly the snapshot. -/
theorem export_import_round_trip (cfg : StorageConfig) (eu iu : Option User)
    (isAuth : Bool) (st : SyncState) (resp : FetchResult)
    (nowE nowI : String) (fields : List (String × Json)) :
    (handleImport cfg iu isAuth st
        (some (handleExport eu (Json.obj fields) nowE)) resp nowI).appData =
      Json.obj fields ∧
    ((cfg.autoSync && isAuth) = false →
      Store.getItem (handleImport cfg iu isAuth st
          (some (handleExport eu (Json.obj fields) nowE)) resp nowI).store
        (getStorageKey iu "data") = some (Json.obj fields)) := by
  have h := handleImport_truthy_data cfg iu isAuth st
    (handleExport eu (Json.obj fields) nowE) resp nowI rfl
  constructor
  · rw [h.1]
    rfl
  · intro hAS
    rw [h.2.1 hAS]
    rfl
